import Mathlib

/-!
# Verification of the sigaa-api session/HTTP core

Shallow embedding of the session-aware HTTP/page pipeline of the
`sigaa-api` repository (TypeScript), together with theorems settling the
spec claims about it.  Each definition mirrors a function of the source:

* `encodeWithRFC3986`, `encodePostValueBody`  — `src/session/sigaa-http.ts`
* `mkPage`, `viewStateGet`                    — `src/session/sigaa-page.ts`
* `switchBond`, `verifyIfBondIsCorrect`, the decorator operations
                                              — `src/session/sigaa-http-with-bond.ts`
* `requestPage`                               — `src/session/sigaa-http.ts`
* `sharedReturnCall`                          — `src/helpers/sigaa-shared-return-decorator-factory.ts`
* `SigaaFile.update`, `SigaaFile.download`    — `src/resources/sigaa-file.ts`

JavaScript strings are modelled as lists of UTF-16 code units
(`List Nat`); object identity is modelled by explicit reference numbers;
`throw` is modelled by `Except` (or by returning the mutated state plus an
error, where the source mutates `this` before throwing).
-/

namespace SigaaApi

/-! ## UTF-16 / encoding groundwork -/

/-- UTF-16 code units of an ASCII string (all model inputs are ASCII). -/
def asciiUnits (s : String) : List Nat :=
  s.toList.map Char.toNat

/-- The `unreservedCharacters` string of `encodeWithRFC3986`
(`sigaa-http.ts` line 303): code units of
`ABCDEFGHIJKLMNOPQRSTUVWXYZabcdefghijklmnopqrstuvwxyz0123456789-_.~`. -/
def unreservedCodes : List Nat :=
  asciiUnits "ABCDEFGHIJKLMNOPQRSTUVWXYZabcdefghijklmnopqrstuvwxyz0123456789-_.~"

/-- JavaScript `String.prototype.codePointAt(i)` on a list of UTF-16
code units: combines a surrogate pair, otherwise returns the unit. -/
def jsCodePointAt (units : List Nat) (i : Nat) : Option Nat :=
  match units.get? i with
  | none => none
  | some u =>
    if 0xD800 ≤ u ∧ u ≤ 0xDBFF then
      match units.get? (i + 1) with
      | some v =>
        if 0xDC00 ≤ v ∧ v ≤ 0xDFFF then
          some ((u - 0xD800) * 0x400 + (v - 0xDC00) + 0x10000)
        else some u
      | none => some u
    else some u

/-- JavaScript `codePoint.toString(16).replace(/..?/g, "%$&")`: the
lowercase hex digits are split in pairs from the left (a final odd digit
stands alone) and each group is prefixed with `%`. -/
def percentChunks : List Char → String
  | [] => ""
  | [a] => "%" ++ String.mk [a]
  | a :: b :: rest => "%" ++ String.mk [a, b] ++ percentChunks rest

/-- One loop iteration of `encodeWithRFC3986` (`sigaa-http.ts` 305-315):
keep the unit if `unreservedCharacters.includes(str.charAt(i))`, else
append the percent-chunked hex of `str.codePointAt(i)`.  The source's
`throw` on an undefined code point is unreachable for `i < units.length`. -/
def encodeCharRFC3986 (units : List Nat) (i : Nat) : String :=
  let u := units.getD i 0
  if u ∈ unreservedCodes then String.mk [Char.ofNat u]
  else
    match jsCodePointAt units i with
    | some cp => percentChunks (Nat.toDigits 16 cp)
    | none => ""

/-- `SigaaHTTP.encodeWithRFC3986` (`sigaa-http.ts` 301-317). -/
def encodeWithRFC3986 (units : List Nat) : String :=
  String.join ((List.range units.length).map (encodeCharRFC3986 units))

/-! ## WHATWG `application/x-www-form-urlencoded` serializer

`encodePostValue` (`sigaa-http.ts` 343-382) builds the POST body with
`new CustomSearchParams(postValues, this.encodeWithRFC3986).toString()`.
`CustomSearchParams extends URLSearchParams` and stores the strict encoder
in a method named `encodeURIComponent`, but `URLSearchParams.toString()`
never calls any such method: per the WHATWG URL Standard it serializes
with the fixed `application/x-www-form-urlencoded` serializer.  The
definitions below model that serializer (external library semantics,
modelled from the WHATWG URL Standard). -/

/-- UTF-8 bytes of a Unicode code point. -/
def utf8Bytes (c : Nat) : List Nat :=
  if c < 0x80 then [c]
  else if c < 0x800 then [0xC0 + c / 0x40, 0x80 + c % 0x40]
  else if c < 0x10000 then
    [0xE0 + c / 0x1000, 0x80 + (c / 0x40) % 0x40, 0x80 + c % 0x40]
  else
    [0xF0 + c / 0x40000, 0x80 + (c / 0x1000) % 0x40,
      0x80 + (c / 0x40) % 0x40, 0x80 + c % 0x40]

/-- Uppercase hex digit. -/
def hexDigitUpper (n : Nat) : Char :=
  if n < 10 then Char.ofNat (48 + n) else Char.ofNat (55 + n)

/-- Two uppercase hex digits of a byte. -/
def hexByteUpper (b : Nat) : String :=
  String.mk [hexDigitUpper (b / 16), hexDigitUpper (b % 16)]

/-- Bytes kept verbatim by the urlencoded serializer:
`*`, `-`, `.`, `_`, digits, ASCII letters. -/
def urlencodedKeep (b : Nat) : Bool :=
  b == 0x2A || b == 0x2D || b == 0x2E || b == 0x5F ||
  (0x30 ≤ b && b ≤ 0x39) || (0x41 ≤ b && b ≤ 0x5A) || (0x61 ≤ b && b ≤ 0x7A)

/-- urlencoded byte serializer: space becomes `+`, kept bytes stay,
every other byte becomes `%XX` with uppercase hex. -/
def urlencodedByte (b : Nat) : String :=
  if b == 0x20 then "+"
  else if urlencodedKeep b then String.mk [Char.ofNat b]
  else "%" ++ hexByteUpper b

/-- urlencoded serialization of one string (UTF-8 encode, then
byte-serialize). -/
def urlencodedString (s : String) : String :=
  String.join ((s.toList.map Char.toNat).flatMap utf8Bytes |>.map urlencodedByte)

/-- `URLSearchParams.toString()` on a field map: `name=value` pairs
joined with `&`. -/
def searchParamsToString (pairs : List (String × String)) : String :=
  String.intercalate "&"
    (pairs.map fun p => urlencodedString p.1 ++ "=" ++ urlencodedString p.2)

/-- The POST body produced by `SigaaHTTP.encodePostValue`
(`sigaa-http.ts` 343-382): `URLSearchParams.toString()` of the field map.
The `encodingFunction` stored on `CustomSearchParams` is dead code — no
path of `URLSearchParams.toString()` invokes it. -/
def encodePostValueBody (postValues : List (String × String)) : String :=
  searchParamsToString postValues

/-! ## Errors

Errors thrown with `new Error('SIGAA: ...')` (and the base-class
`InstanceClosedError`), modelled by name; `networkError` stands for an
arbitrary transport/hook rejection. -/

inductive SigaaError
  | sessionExpired
  | couldNotSwitchBond
  | invalidFileData
  | instanceClosed
  | missingKey
  | networkError (code : Nat)
  deriving DecidableEq, Repr

/-! ## Page construction (`sigaa-page.ts`) -/

/-- Substring containment, as JavaScript `String.prototype.includes`. -/
def strContains (s pat : String) : Bool :=
  (List.range (s.length + 1)).any fun i => pat.toList.isPrefixOf (s.toList.drop i)

/-- The expired-session endpoint checked by `checkPageStatusCodeAndExpired`. -/
def expiredSessionPath : String := "/sigaa/expirada.jsp"

/-- Response descriptor handed to the `CommonSigaaPage` constructor:
status code, `headers.location` (absent on most responses) and body. -/
structure PageData where
  statusCode : Nat
  location : Option String
  body : String
  deriving DecidableEq, Repr

/-- The condition of `checkPageStatusCodeAndExpired` (`sigaa-page.ts`
211-217): `statusCode === 302 && headers.location?.includes('/sigaa/expirada.jsp')`;
an absent location header makes the optional chain falsy. -/
def isExpiredRedirect (d : PageData) : Bool :=
  d.statusCode == 302 &&
    (match d.location with
     | some l => strContains l expiredSessionPath
     | none => false)

/-- `CommonSigaaPage` constructor (`sigaa-page.ts` 117-127): assigns the
response fields, then runs `checkPageStatusCodeAndExpired`, whose throw
aborts construction. -/
def mkPage (d : PageData) : Except SigaaError PageData :=
  if isExpiredRedirect d then .error .sessionExpired else .ok d

/-! ## viewState (`sigaa-page.ts` 222-230)

The cheerio DOM of the body is abstracted by its list of `input` fields
(name, value); `$("input[name=n]").val()` is the first matching field's
value, `undefined` on an empty selection. -/

/-- cheerio `$("input[name=name]").val()` over the input-field projection
of the DOM. -/
def queryInputVal (inputs : List (String × String)) (name : String) : Option String :=
  (inputs.find? fun p => p.1 == name).map Prod.snd

/-- Name of the hidden view-state field. -/
def viewStateFieldName : String := "javax.faces.ViewState"

/-- The `viewState` getter with its memo field `_viewState`: if the memo
is unset, query the DOM (the cheerio selection object is always truthy,
so the `if (responseViewStateEl)` guard always passes) and store
`val()`; return the memo.  Result: (returned value, new memo). -/
def viewStateGet (inputs : List (String × String)) (memo : Option String) :
    Option String × Option String :=
  match memo with
  | some v => (some v, some v)
  | none =>
    let v := queryInputVal inputs viewStateFieldName
    (v, v)

/-! ## Bond-aware HTTP decorator (`sigaa-http-with-bond.ts`)

JavaScript `!==` on `URLParser` objects compares references, so bond
URLs are modelled as reference numbers.  The decorator's observable
actions on the wrapped transport, the `BondController` and the
`PageCacheWithBond` are recorded as events. -/

abbrev BondRef := Nat

/-- Mutable state external to the decorator: the controller's
`_currentBond` and the bond the page cache is scoped to. -/
structure BondState where
  currentBond : Option BondRef
  cacheBond : Option BondRef
  deriving DecidableEq, Repr

/-- The six wrapped operations of `SigaaHTTPWithBond`. -/
inductive BondOp
  | getOp | postOp | postMultipartOp | fileByGetOp | fileByPostOp | followOp
  deriving DecidableEq, Repr

/-- Observable actions of the decorator. -/
inductive BondEv
  | getReq (url : BondRef) (noCache : Bool)
  | followReq (noCache : Bool)
  | commitBond (b : BondRef)
  | rescopeCache (b : BondRef)
  | wrappedOp (op : BondOp)
  deriving DecidableEq, Repr

/-- Whether an event is execution of the wrapped transport operation. -/
def isWrappedEv : BondEv → Bool
  | .wrappedOp _ => true
  | _ => false

/-- Outcome of the switch exchange supplied by the wrapped transport:
the status code of the page returned by `followAllRedirect`. -/
structure SwitchEnv where
  finalStatus : Nat
  deriving DecidableEq, Repr

/-- `SigaaHTTPWithBond.switchBond` (`sigaa-http-with-bond.ts` 44-57):
with a non-null switch URL, GET it with `noCache: true`, follow all
redirects with `noCache: true`, throw unless the final status is 200,
then assign the controller's bond and rescope the cache.  Returns the
resulting external state, the thrown error if any, and the event list. -/
def switchBond (env : SwitchEnv) (bondSwitchUrl : Option BondRef) (st : BondState) :
    BondState × Option SigaaError × List BondEv :=
  match bondSwitchUrl with
  | none => (st, none, [])
  | some url =>
    if env.finalStatus ≠ 200 then
      (st, some .couldNotSwitchBond, [.getReq url true, .followReq true])
    else
      ({ currentBond := some url, cacheBond := some url }, none,
        [.getReq url true, .followReq true, .commitBond url, .rescopeCache url])

/-- `SigaaHTTPWithBond.verifyIfBondIsCorrect` (`sigaa-http-with-bond.ts`
35-39): switch when `bondSwitchUrl !== bondController.currentBond`. -/
def verifyIfBondIsCorrect (env : SwitchEnv) (bondSwitchUrl : Option BondRef)
    (st : BondState) : BondState × Option SigaaError × List BondEv :=
  if bondSwitchUrl ≠ st.currentBond then switchBond env bondSwitchUrl st
  else (st, none, [])

/-- Common shape of all six decorator operations (`sigaa-http-with-bond.ts`
62-127): `await this.verifyIfBondIsCorrect()` then delegate to the
wrapped transport; a throw in the check aborts before the wrapped call. -/
def bondDecoratedOp (env : SwitchEnv) (bondSwitchUrl : Option BondRef)
    (st : BondState) (op : BondOp) : BondState × Option SigaaError × List BondEv :=
  match verifyIfBondIsCorrect env bondSwitchUrl st with
  | (st', none, evs) => (st', none, evs ++ [.wrappedOp op])
  | (st', some e, evs) => (st', some e, evs)

/-! ## requestPage and the session hooks (`sigaa-http.ts` 401-464) -/

/-- Hook / exchange invocations, in the order they appear in the trace. -/
inductive ReqEv
  | afterHTTPOptionsEv | beforeRequestEv | exchangeEv | afterSuccessEv | afterUnsuccessEv
  deriving DecidableEq, Repr

/-- Position of each event in the fixed pipeline order. -/
def reqEvRank : ReqEv → Nat
  | .afterHTTPOptionsEv => 0
  | .beforeRequestEv => 1
  | .exchangeEv => 2
  | .afterSuccessEv => 3
  | .afterUnsuccessEv => 4

/-- Behavior of the pluggable `HTTPSession` hooks and of the transport
exchange for one `requestPage` call: each step may throw (`Except`);
`beforeRequestR` may return a cached page to short-circuit the network. -/
structure SessionEnv where
  afterHTTPOptionsR : Except SigaaError Unit
  beforeRequestR : Except SigaaError (Option PageData)
  exchangeR : Except SigaaError PageData
  afterSuccessR : PageData → Except SigaaError PageData
  afterUnsuccessR : SigaaError → Except SigaaError PageData

/-- The `catch` block of `requestPage`: `afterUnsuccessfulRequest` is
invoked with the error; its own result (page or rethrow) is the call's
outcome. -/
def requestPageCatch (env : SessionEnv) (e : SigaaError) (evs : List ReqEv) :
    Except SigaaError PageData × List ReqEv :=
  (env.afterUnsuccessR e, evs ++ [.afterUnsuccessEv])

/-- `SigaaHTTP.requestPage` (`sigaa-http.ts` 401-464): inside `try`,
`afterHTTPOptions`, then `beforeRequest`; a page from `beforeRequest` is
passed to `afterSuccessfulRequest` and returned with no exchange;
otherwise `requestHTTP` runs, the institution Page is constructed
(`mkPage`, which may throw `SessionExpiredError`), and the page goes
through `afterSuccessfulRequest`.  Any throw lands in the `catch`. -/
def requestPage (env : SessionEnv) : Except SigaaError PageData × List ReqEv :=
  match env.afterHTTPOptionsR with
  | .error e => requestPageCatch env e [.afterHTTPOptionsEv]
  | .ok _ =>
    match env.beforeRequestR with
    | .error e => requestPageCatch env e [.afterHTTPOptionsEv, .beforeRequestEv]
    | .ok (some page) =>
      match env.afterSuccessR page with
      | .ok p =>
        (.ok p, [.afterHTTPOptionsEv, .beforeRequestEv, .afterSuccessEv])
      | .error e =>
        requestPageCatch env e [.afterHTTPOptionsEv, .beforeRequestEv, .afterSuccessEv]
    | .ok none =>
      match env.exchangeR with
      | .error e =>
        requestPageCatch env e [.afterHTTPOptionsEv, .beforeRequestEv, .exchangeEv]
      | .ok desc =>
        match mkPage desc with
        | .error e =>
          requestPageCatch env e [.afterHTTPOptionsEv, .beforeRequestEv, .exchangeEv]
        | .ok page =>
          match env.afterSuccessR page with
          | .ok p =>
            (.ok p, [.afterHTTPOptionsEv, .beforeRequestEv, .exchangeEv, .afterSuccessEv])
          | .error e =>
            requestPageCatch env e
              [.afterHTTPOptionsEv, .beforeRequestEv, .exchangeEv, .afterSuccessEv]

/-! ## sharedReturn (`sigaa-shared-return-decorator-factory.ts` 22-38)

Instances are modelled as immutable field records tagged with a
reference number (`ref`) standing for their JavaScript object identity;
the wrapper never mutates a stored instance. -/

/-- A materialized in-memory instance. -/
structure Inst where
  ref : Nat
  title : String
  key : String
  deriving DecidableEq, Repr

/-- The first argument of a memoized factory method: natural id plus the
freshly parsed fields. -/
structure ResourceData where
  id : String
  title : String
  key : String
  deriving DecidableEq, Repr

/-- The per-method store `this[store] : Map<id, instance>` plus the next
free object reference. -/
structure FactoryState where
  store : List (String × Inst)
  nextRef : Nat
  deriving DecidableEq, Repr

/-- A representative original factory method: constructs a fresh
instance from the data. -/
def originalFactory (d : ResourceData) (st : FactoryState) : Inst × FactoryState :=
  ({ ref := st.nextRef, title := d.title, key := d.key },
    { st with nextRef := st.nextRef + 1 })

/-- The wrapper installed by `sharedReturn`
(`sigaa-shared-return-decorator-factory.ts` 22-38): a falsy id bypasses
the store; a stored instance is returned as is (no call on it); a miss
runs the original method and stores the result under the id. -/
def sharedReturnCall (d : ResourceData) (st : FactoryState) : Inst × FactoryState :=
  if d.id = "" then originalFactory d st
  else
    match st.store.lookup d.id with
    | some inst => (inst, st)
    | none =>
      let (inst, st') := originalFactory d st
      (inst, { st' with store := (d.id, inst) :: st'.store })

/-! ## SigaaFile (`sigaa-file.ts`, `src/unnamed/part_000`) -/

/-- `SigaaForm`: action URL plus field map. -/
structure SigaaFormM where
  action : String
  postValues : List (String × String)
  deriving DecidableEq, Repr

/-- The mutable fields of a `SigaaFile` instance. -/
structure FileState where
  form : Option SigaaFormM
  title : Option String
  description : Option String
  fileId : Option String
  key : Option String
  isClosed : Bool
  deriving DecidableEq, Repr

/-- A `FileData` argument: the TypeScript value is a plain object, so
each of `form`, `id`, `key` may be present or `undefined` independently
of the two declared interface shapes. -/
structure FileDataM where
  form : Option SigaaFormM
  dataId : Option String
  dataKey : Option String
  title : String
  description : String
  deriving DecidableEq, Repr

/-- `SigaaFile.update` (`sigaa-file.ts` 85-103): `_title` and
`_description` are assigned first; then, with a form, `form`/`_id`/`_key`
are taken from the form's field map; with `id` and `key` both defined,
`_id`/`_key` are assigned (the old form is left in place); otherwise
`throw new Error('SIGAA: Invalid FileData.')` — after the first two
assignments have already mutated the instance.  Returns the state as
mutated plus the thrown error, if any. -/
def fileUpdate (o : FileDataM) (s : FileState) : FileState × Option SigaaError :=
  let s1 := { s with title := some o.title, description := some o.description }
  match o.form with
  | some f =>
    ({ s1 with
        form := some f
        fileId := f.postValues.lookup "id"
        key := f.postValues.lookup "key"
        isClosed := false }, none)
  | none =>
    match o.dataId, o.dataKey with
    | some i, some k =>
      ({ s1 with fileId := some i, key := some k, isClosed := false }, none)
    | _, _ => (s1, some .invalidFileData)

/-- Modelled from the spec: `AbstractUpdatableResource.updateInstance`
(file `updatable-resource.ts`, not under `src/`) triggers the resource's
own update — "re-fetching/re-deriving fresh form data through the owning
collection" — i.e. the updater callback applies `SigaaFile.update` with
the freshly derived `FileData`. -/
def updateInstance (fresh : FileDataM) (s : FileState) : FileState × Option SigaaError :=
  fileUpdate fresh s

/-- Observable actions of `SigaaFile.download`. -/
inductive DlEv
  | postAttempt (action : String)
  | getAttempt (path : String)
  | updateInstanceEv
  deriving DecidableEq, Repr

/-- Outcomes the environment supplies to `download`: the result of the
n-th HTTP attempt (in order of issue) and the fresh `FileData` the
owning collection's updater re-derives for `updateInstance`. -/
structure DlEnv where
  attemptResult : Nat → Except SigaaError Nat
  freshData : FileDataM

/-- JavaScript template-literal rendering of a possibly-undefined string. -/
def jsStr : Option String → String
  | some v => v
  | none => "undefined"

/-- The GET path `/sigaa/verFoto?idArquivo=${this.id}&key=${this.key}`. -/
def downloadPath (s : FileState) : String :=
  "/sigaa/verFoto?idArquivo=" ++ jsStr s.fileId ++ "&key=" ++ jsStr s.key

/-- `SigaaFile.download` with `retry = false` (`src/unnamed/part_000`
136-167, second entry of the bounded recursion): the closed check throws
`InstanceClosedError` (modelled from the spec: `checkIfItWasClosed` of
`updatable-resource.ts` is not under `src/`); with a form, one POST
attempt whose failure discards the form, runs `updateInstance` and — as
`retry` is false — rethrows the attempt's error (or the updater's, if
that throws); with a key, one GET attempt whose failure is rethrown;
with neither, the missing-key error.  `n` counts HTTP attempts already
issued. -/
def downloadNoRetry (env : DlEnv) (n : Nat) (s : FileState) :
    Except SigaaError Nat × FileState × List DlEv :=
  if s.isClosed then (.error .instanceClosed, s, [])
  else
    match s.form with
    | some f =>
      match env.attemptResult n with
      | .ok v => (.ok v, s, [.postAttempt f.action])
      | .error e =>
        match updateInstance env.freshData { s with form := none } with
        | (s2, some e2) => (.error e2, s2, [.postAttempt f.action, .updateInstanceEv])
        | (s2, none) => (.error e, s2, [.postAttempt f.action, .updateInstanceEv])
    | none =>
      match s.key with
      | some _ =>
        match env.attemptResult n with
        | .ok v => (.ok v, s, [.getAttempt (downloadPath s)])
        | .error e => (.error e, s, [.getAttempt (downloadPath s)])
      | none => (.error .missingKey, s, [])

/-- `SigaaFile.download` with the default `retry = true`
(`src/unnamed/part_000` 136-167): as `downloadNoRetry`, but a failed
form POST — after discarding the form and running `updateInstance` —
re-enters `download` with `retry = false`, and a failed key GET
re-enters `download` with `retry = false` directly. -/
def download (env : DlEnv) (s : FileState) :
    Except SigaaError Nat × FileState × List DlEv :=
  if s.isClosed then (.error .instanceClosed, s, [])
  else
    match s.form with
    | some f =>
      match env.attemptResult 0 with
      | .ok v => (.ok v, s, [.postAttempt f.action])
      | .error _ =>
        match updateInstance env.freshData { s with form := none } with
        | (s2, some e2) => (.error e2, s2, [.postAttempt f.action, .updateInstanceEv])
        | (s2, none) =>
          let (r, s3, evs) := downloadNoRetry env 1 s2
          (r, s3, .postAttempt f.action :: .updateInstanceEv :: evs)
    | none =>
      match s.key with
      | some _ =>
        match env.attemptResult 0 with
        | .ok v => (.ok v, s, [.getAttempt (downloadPath s)])
        | .error _ =>
          let (r, s3, evs) := downloadNoRetry env 1 s
          (r, s3, .getAttempt (downloadPath s) :: evs)
      | none => (.error .missingKey, s, [])

end SigaaApi

namespace SigaaApi

/-! ## Theorems -/

/-- C1: the body `post` actually serializes for the fields
`{a: "a b&c"}` is `"a=a+b%26c"` — `URLSearchParams.toString()` encodes
the space as `+` (the lenient WHATWG scheme), not as a percent sequence,
because the strict encoder stored on `CustomSearchParams` is never
invoked; the strict `encodeWithRFC3986` itself would have produced
`"a%20b%26c"`, percent-escaping every non-unreserved byte with space
never encoded as `+`. -/
theorem post_body_uses_lenient_encoding :
    encodePostValueBody [("a", "a b&c")] = "a=a+b%26c" ∧
    strContains (encodePostValueBody [("a", "a b&c")]) "+" = true ∧
    encodeWithRFC3986 (asciiUnits "a b&c") = "a%20b%26c" ∧
    strContains (encodeWithRFC3986 (asciiUnits "a b&c")) "+" = false := by
  refine ⟨by decide, by decide, by decide, by decide⟩

/-- C3: `Page` construction throws the session-expired error exactly
when the status code is 302 and the `Location` header contains
`/sigaa/expirada.jsp`, for every body; otherwise construction succeeds,
so that error is never thrown on a non-matching descriptor. -/
theorem page_construction_session_expired (status : Nat) (loc : Option String)
    (body : String) :
    (mkPage ⟨status, loc, body⟩ = .error .sessionExpired ↔
      status = 302 ∧ ∃ l, loc = some l ∧ strContains l expiredSessionPath = true) ∧
    (mkPage ⟨status, loc, body⟩ = .error .sessionExpired ∨
      mkPage ⟨status, loc, body⟩ = .ok ⟨status, loc, body⟩) := by
  constructor
  · cases loc with
    | none => simp [mkPage, isExpiredRedirect]
    | some l =>
      by_cases h : strContains l expiredSessionPath = true
      · by_cases h2 : status = 302 <;> simp [mkPage, isExpiredRedirect, h, h2]
      · simp [mkPage, isExpiredRedirect, h]
  · unfold mkPage
    split
    · exact Or.inl rfl
    · exact Or.inr rfl

/-- C9: on a freshly constructed `Page` (memo unset), the `viewState`
getter returns the value of the hidden `javax.faces.ViewState` input
when the DOM contains one (the first such input's exact value), and
`none` when no input of that name exists; it is total (never throws),
and a repeated access through the updated memo returns the same
result. -/
theorem view_state_extraction (inputs : List (String × String)) :
    (∀ pre v rest, inputs = pre ++ ("javax.faces.ViewState", v) :: rest →
      (∀ p ∈ pre, p.1 ≠ "javax.faces.ViewState") →
      (viewStateGet inputs none).1 = some v) ∧
    ((∀ p ∈ inputs, p.1 ≠ "javax.faces.ViewState") →
      (viewStateGet inputs none).1 = none) ∧
    (viewStateGet inputs (viewStateGet inputs none).2).1 =
      (viewStateGet inputs none).1 := by
  refine ⟨?_, ?_, ?_⟩
  · intro pre v rest heq hpre
    subst heq
    induction pre with
    | nil => simp [viewStateGet, queryInputVal, viewStateFieldName]
    | cons p ps ih =>
      have hp : p.1 ≠ "javax.faces.ViewState" := hpre p (by simp)
      have hps : ∀ q ∈ ps, q.1 ≠ "javax.faces.ViewState" := by
        intro q hq
        exact hpre q (by simp [hq])
      have := ih hps
      simp only [viewStateGet, queryInputVal, viewStateFieldName] at this ⊢
      rw [List.cons_append, List.find?_cons_of_neg]
      · exact this
      · simpa using hp
  · intro habs
    have : inputs.find? (fun p => p.1 == "javax.faces.ViewState") = none := by
      rw [List.find?_eq_none]
      intro p hp
      simpa using habs p hp
    simp [viewStateGet, queryInputVal, viewStateFieldName, this]
  · unfold viewStateGet queryInputVal
    cases h : (inputs.find? fun p => p.1 == viewStateFieldName) <;> simp [h]

/-- C10: with a null bond-switch URL, every decorator operation runs the
wrapped transport operation directly: no switch exchange is issued, the
Bond Controller's current bond and the cache's bond scope are unchanged
— also when the controller's current bond is non-null and thus differs
from the decorator's (null) required bond. -/
theorem null_switch_url_is_inert (env : SwitchEnv) (st : BondState) (op : BondOp) :
    bondDecoratedOp env none st op = (st, none, [.wrappedOp op]) := by
  unfold bondDecoratedOp verifyIfBondIsCorrect switchBond
  cases h : st.currentBond <;> simp [h]

/-- C4: the bond-switch exchange issues a GET of the switch URL with
caching disabled, then follows all redirects with caching disabled; when
the final status is 200 it commits the new bond to the controller and
rescopes the cache (after the check, as the event order shows), and when
the final status is not 200 it throws the bond-switch error with the
controller's current bond and the cache scope unchanged and no
commit/rescope event issued. -/
theorem switch_bond_exchange (env : SwitchEnv) (url : BondRef) (st : BondState) :
    (env.finalStatus = 200 →
      switchBond env (some url) st =
        (⟨some url, some url⟩, none,
          [.getReq url true, .followReq true, .commitBond url, .rescopeCache url])) ∧
    (env.finalStatus ≠ 200 →
      switchBond env (some url) st =
        (st, some .couldNotSwitchBond, [.getReq url true, .followReq true])) := by
  constructor
  · intro h
    simp [switchBond, h]
  · intro h
    simp [switchBond, h]

/-- C4 witness: the switch exchange evaluated at final status 200 (bond
committed, cache rescoped) and at final status 500 (bond-switch error,
state unchanged). -/
theorem switch_bond_exchange_witness :
    switchBond ⟨200⟩ (some 7) ⟨some 3, some 3⟩ =
      (⟨some 7, some 7⟩, none,
        [.getReq 7 true, .followReq true, .commitBond 7, .rescopeCache 7]) ∧
    switchBond ⟨500⟩ (some 7) ⟨some 3, some 3⟩ =
      (⟨some 3, some 3⟩, some .couldNotSwitchBond,
        [.getReq 7 true, .followReq true]) :=
  ⟨(switch_bond_exchange ⟨200⟩ 7 ⟨some 3, some 3⟩).1 rfl,
    (switch_bond_exchange ⟨500⟩ 7 ⟨some 3, some 3⟩).2 (by decide)⟩

/-- C5: for every decorator operation, the full trace is the bond-check
trace followed — only when the check succeeded — by the single wrapped
transport call, and the bond-check trace itself contains no wrapped
call, so the check completes before the wrapped operation; and when the
controller's current bond already equals the decorator's required bond,
no switch exchange is issued: the trace is just the wrapped call and the
external state is untouched. -/
theorem bond_check_before_operation (env : SwitchEnv) (url : Option BondRef)
    (st : BondState) (op : BondOp) :
    (st.currentBond = url → bondDecoratedOp env url st op = (st, none, [.wrappedOp op])) ∧
    (bondDecoratedOp env url st op).2.2 =
      (verifyIfBondIsCorrect env url st).2.2 ++
        (match (verifyIfBondIsCorrect env url st).2.1 with
          | none => [BondEv.wrappedOp op]
          | some _ => []) ∧
    (∀ e ∈ (verifyIfBondIsCorrect env url st).2.2, isWrappedEv e = false) := by
  refine ⟨?_, ?_, ?_⟩
  · intro h
    simp [bondDecoratedOp, verifyIfBondIsCorrect, h]
  · rcases hv : verifyIfBondIsCorrect env url st with ⟨st', err, evs⟩
    cases err <;> simp [bondDecoratedOp, hv]
  · intro e he
    unfold verifyIfBondIsCorrect switchBond at he
    by_cases h : url ≠ st.currentBond
    · simp only [if_pos h] at he
      cases url with
      | none => simp at he
      | some u =>
        by_cases hs : env.finalStatus ≠ 200
        · simp [if_pos hs] at he
          rcases he with h1 | h1 <;> simp [h1, isWrappedEv]
        · simp [if_neg hs] at he
          rcases he with h1 | h1 | h1 | h1 <;> simp [h1, isWrappedEv]
    · simp [if_neg h] at he

/-- C5 witness: with the required bond already current, the decorator's
`get` runs the wrapped operation with no switch exchange. -/
theorem bond_check_before_operation_witness :
    bondDecoratedOp ⟨200⟩ (some 5) ⟨some 5, some 5⟩ BondOp.getOp =
      (⟨some 5, some 5⟩, none, [.wrappedOp BondOp.getOp]) :=
  (bond_check_before_operation ⟨200⟩ (some 5) ⟨some 5, some 5⟩ BondOp.getOp).1 rfl

/-- C2 counterexample: materializing id `"42"` first with title `"A"`,
key `"k1"`, then with title `"B"`, key `"k2"`: the second materialization
returns the same instance, but its fields are still those of the first
materialization (`title = "A"`, `key = "k1"`, not `"B"`/`"k2"`), and the
store is left untouched — no `update(newData)` happened, contradicting
the claim that the second materialization's fields become visible. -/
theorem shared_return_no_update_counterexample :
    (sharedReturnCall ⟨"42", "B", "k2"⟩ (sharedReturnCall ⟨"42", "A", "k1"⟩ ⟨[], 0⟩).2).1.ref =
      (sharedReturnCall ⟨"42", "A", "k1"⟩ ⟨[], 0⟩).1.ref ∧
    (sharedReturnCall ⟨"42", "B", "k2"⟩ (sharedReturnCall ⟨"42", "A", "k1"⟩ ⟨[], 0⟩).2).1.title = "A" ∧
    ¬((sharedReturnCall ⟨"42", "B", "k2"⟩ (sharedReturnCall ⟨"42", "A", "k1"⟩ ⟨[], 0⟩).2).1.title = "B") ∧
    (sharedReturnCall ⟨"42", "B", "k2"⟩ (sharedReturnCall ⟨"42", "A", "k1"⟩ ⟨[], 0⟩).2).2 =
      (sharedReturnCall ⟨"42", "A", "k1"⟩ ⟨[], 0⟩).2 := by
  decide

/-- C2 (amended): materializing a resource twice with the same non-empty
natural id returns the same in-memory instance both times, but on the
cache hit the factory returns the stored instance as is, without calling
its `update`: the second call leaves the store untouched and the
instance keeps the fields of its first materialization. -/
theorem shared_return_same_instance (st : FactoryState) (d₁ d₂ : ResourceData)
    (hid : d₁.id = d₂.id) (hne : d₁.id ≠ "") :
    sharedReturnCall d₂ (sharedReturnCall d₁ st).2 =
      ((sharedReturnCall d₁ st).1, (sharedReturnCall d₁ st).2) := by
  have hne₂ : d₂.id ≠ "" := hid ▸ hne
  unfold sharedReturnCall originalFactory
  simp only [if_neg hne, if_neg hne₂]
  cases h : st.store.lookup d₁.id with
  | some inst =>
    simp [h, ← hid]
  | none =>
    simp only [h, ← hid]
    simp [List.lookup, ← hid]

/-- C2 amended-claim witness: two materializations of id `"1"` with
different snapshots return the first instance and first-state pair. -/
theorem shared_return_same_instance_witness :
    ("1" : String) ≠ "" ∧
    sharedReturnCall ⟨"1", "B", "k2"⟩ (sharedReturnCall ⟨"1", "A", "k1"⟩ ⟨[], 0⟩).2 =
      ((sharedReturnCall ⟨"1", "A", "k1"⟩ ⟨[], 0⟩).1,
        (sharedReturnCall ⟨"1", "A", "k1"⟩ ⟨[], 0⟩).2) :=
  ⟨by decide,
    shared_return_same_instance ⟨[], 0⟩ ⟨"1", "A", "k1"⟩ ⟨"1", "B", "k2"⟩ rfl (by decide)⟩

/-- C8 counterexample: `update` on an open instance (title `"old"`) with
invalid data (no form, no id/key, title `"new"`) throws the invalid-data
error but has already overwritten the observable `title` (and
`description`): the instance's fields are not unchanged on rejection. -/
theorem file_update_invalid_mutates_counterexample :
    (fileUpdate ⟨none, none, none, "new", "newd"⟩
      ⟨none, some "old", some "oldd", some "1", some "k", false⟩).2 =
        some .invalidFileData ∧
    (fileUpdate ⟨none, none, none, "new", "newd"⟩
      ⟨none, some "old", some "oldd", some "1", some "k", false⟩).1.title = some "new" ∧
    ¬((fileUpdate ⟨none, none, none, "new", "newd"⟩
      ⟨none, some "old", some "oldd", some "1", some "k", false⟩).1.title = some "old") := by
  decide

/-- C8 (amended): `update` with form data replaces the form and draws id
and key together from the form's field map, clearing the closed flag;
with an id/key pair it assigns both together and clears the closed flag,
leaving a previously stored form in place; the id/key pair is always
assigned as a pair from one data source, never split; but `title` and
`description` are assigned before validation, so an `update` that
rejects invalid data still overwrites them, while `form`, id, key and
the closed flag are unchanged on rejection. -/
theorem file_update_behavior (s : FileState) (o : FileDataM) :
    (∀ f, o.form = some f →
      fileUpdate o s =
        ({ s with
            title := some o.title
            description := some o.description
            form := some f
            fileId := f.postValues.lookup "id"
            key := f.postValues.lookup "key"
            isClosed := false }, none)) ∧
    (∀ i k, o.form = none → o.dataId = some i → o.dataKey = some k →
      fileUpdate o s =
        ({ s with
            title := some o.title
            description := some o.description
            fileId := some i
            key := some k
            isClosed := false }, none)) ∧
    (o.form = none → (o.dataId = none ∨ o.dataKey = none) →
      fileUpdate o s =
        ({ s with
            title := some o.title
            description := some o.description }, some .invalidFileData)) := by
  refine ⟨?_, ?_, ?_⟩
  · intro f hf
    simp [fileUpdate, hf]
  · intro i k hf hi hk
    simp [fileUpdate, hf, hi, hk]
  · intro hf hik
    rcases hik with hi | hk
    · cases hk : o.dataKey <;> simp [fileUpdate, hf, hi, hk]
    · cases hi : o.dataId <;> simp [fileUpdate, hf, hi, hk]

/-- C8 amended-claim witness: `update` evaluated on one concrete open
instance with form data, with an id/key pair, and with invalid data. -/
theorem file_update_behavior_witness :
    fileUpdate ⟨some ⟨"act", [("id", "7"), ("key", "K")]⟩, none, none, "t", "d"⟩
      ⟨none, some "o", some "od", some "1", some "k", true⟩ =
      (⟨some ⟨"act", [("id", "7"), ("key", "K")]⟩, some "t", some "d",
        some "7", some "K", false⟩, none) ∧
    fileUpdate ⟨none, some "9", some "Q", "t", "d"⟩
      ⟨some ⟨"a", []⟩, some "o", some "od", some "1", some "k", true⟩ =
      (⟨some ⟨"a", []⟩, some "t", some "d", some "9", some "Q", false⟩, none) ∧
    fileUpdate ⟨none, none, some "Q", "t", "d"⟩
      ⟨none, some "o", some "od", some "1", some "k", false⟩ =
      (⟨none, some "t", some "d", some "1", some "k", false⟩,
        some .invalidFileData) :=
  ⟨(file_update_behavior ⟨none, some "o", some "od", some "1", some "k", true⟩
      ⟨some ⟨"act", [("id", "7"), ("key", "K")]⟩, none, none, "t", "d"⟩).1
      ⟨"act", [("id", "7"), ("key", "K")]⟩ rfl,
    (file_update_behavior ⟨some ⟨"a", []⟩, some "o", some "od", some "1", some "k", true⟩
      ⟨none, some "9", some "Q", "t", "d"⟩).2.1 "9" "Q" rfl rfl rfl,
    (file_update_behavior ⟨none, some "o", some "od", some "1", some "k", false⟩
      ⟨none, none, some "Q", "t", "d"⟩).2.2 rfl (Or.inl rfl)⟩

/-- C7: every `requestPage` trace follows the fixed hook order
`afterHTTPOptions`, `beforeRequest`, exchange, `afterSuccessfulRequest` /
`afterUnsuccessfulRequest` (event ranks strictly increase along the
trace); the exchange happens only when `beforeRequest` returned no page;
and whenever `beforeRequest` returns a page, no exchange occurs and that
page, passed through `afterSuccessfulRequest`, is the call's result. -/
theorem request_page_hook_order (env : SessionEnv) :
    List.Chain' (fun a b => reqEvRank a < reqEvRank b) (requestPage env).2 ∧
    (ReqEv.exchangeEv ∈ (requestPage env).2 → env.beforeRequestR = .ok none) ∧
    (∀ p, env.beforeRequestR = .ok (some p) →
      ReqEv.exchangeEv ∉ (requestPage env).2 ∧
      ∀ q, env.afterSuccessR p = .ok q →
        env.afterHTTPOptionsR = .ok () → (requestPage env).1 = .ok q) := by
  obtain ⟨o, b, x, sf, uf⟩ := env
  rcases o with oe | ou
  · refine ⟨?_, ?_, ?_⟩ <;>
      simp [requestPage, requestPageCatch, List.chain'_cons, reqEvRank]
  · cases ou
    rcases b with be | bp
    · refine ⟨?_, ?_, ?_⟩ <;>
        simp [requestPage, requestPageCatch, List.chain'_cons, reqEvRank]
    · rcases bp with _ | p
      · rcases x with xe | desc
        · refine ⟨?_, ?_, ?_⟩ <;>
            simp [requestPage, requestPageCatch, List.chain'_cons, reqEvRank]
        · rcases hm : mkPage desc with me | pg
          · refine ⟨?_, ?_, ?_⟩ <;>
              simp [requestPage, requestPageCatch, List.chain'_cons, reqEvRank, hm]
          · rcases hs : sf pg with se | q
            · refine ⟨?_, ?_, ?_⟩ <;>
                simp [requestPage, requestPageCatch, List.chain'_cons, reqEvRank, hm, hs]
            · refine ⟨?_, ?_, ?_⟩ <;>
                simp [requestPage, requestPageCatch, List.chain'_cons, reqEvRank, hm, hs]
      · rcases hs : sf p with se | q
        · refine ⟨?_, ?_, ?_⟩
          · simp [requestPage, requestPageCatch, List.chain'_cons, reqEvRank, hs]
          · simp [requestPage, requestPageCatch, hs]
          · intro p' hp'
            obtain rfl : p = p' := by simpa using hp'
            refine ⟨by simp [requestPage, requestPageCatch, hs], ?_⟩
            intro q hq
            have hq' : sf p = Except.ok q := hq
            rw [hs] at hq'
            exact absurd hq' (by simp)
        · refine ⟨?_, ?_, ?_⟩
          · simp [requestPage, requestPageCatch, List.chain'_cons, reqEvRank, hs]
          · simp [requestPage, requestPageCatch, hs]
          · intro p' hp'
            obtain rfl : p = p' := by simpa using hp'
            refine ⟨by simp [requestPage, requestPageCatch, hs], ?_⟩
            intro q' hq' _
            have hq₂ : sf p = Except.ok q' := hq'
            rw [hs] at hq₂
            obtain rfl : q = q' := by simpa using hq₂
            simp [requestPage, requestPageCatch, hs]

/-- C7 witness: a session whose `beforeRequest` returns a cached page
completes with that page (via `afterSuccessfulRequest`) and its trace
holds no exchange event. -/
theorem request_page_hook_order_witness :
    ReqEv.exchangeEv ∉
      (requestPage ⟨.ok (), .ok (some ⟨200, none, "b"⟩), .ok ⟨200, none, "b"⟩,
        fun p => .ok p, fun e => .error e⟩).2 ∧
    (requestPage ⟨.ok (), .ok (some ⟨200, none, "b"⟩), .ok ⟨200, none, "b"⟩,
        fun p => .ok p, fun e => .error e⟩).1 = .ok ⟨200, none, "b"⟩ := by
  have h := (request_page_hook_order
    ⟨.ok (), .ok (some ⟨200, none, "b"⟩), .ok ⟨200, none, "b"⟩,
      fun p => .ok p, fun e => .error e⟩).2.2 ⟨200, none, "b"⟩ rfl
  exact ⟨h.1, h.2 ⟨200, none, "b"⟩ rfl rfl⟩

/-- C6: for an open file resource backed by a form whose first download
attempt (the form POST) fails, `download` discards the stale form, runs
its own update (`updateInstance`, which re-derives fresh id/key data
through the owning collection) and retries exactly once via the
id/key GET path; when that retry also fails, the error surfaced to the
caller is the second failure's error, not the first, and the trace shows
exactly two HTTP attempts — no third attempt is made. -/
theorem file_download_retry_once (s : FileState) (f : SigaaFormM) (env : DlEnv)
    (e₁ e₂ : SigaaError) (i k t d : String)
    (hopen : s.isClosed = false) (hform : s.form = some f)
    (h0 : env.attemptResult 0 = .error e₁)
    (hfresh : env.freshData = ⟨none, some i, some k, t, d⟩)
    (h1 : env.attemptResult 1 = .error e₂) :
    download env s =
      (.error e₂,
        { s with
            form := none
            title := some t
            description := some d
            fileId := some i
            key := some k
            isClosed := false },
        [.postAttempt f.action, .updateInstanceEv,
          .getAttempt ("/sigaa/verFoto?idArquivo=" ++ i ++ "&key=" ++ k)]) := by
  unfold download
  rw [if_neg (by simp [hopen])]
  simp only [hform, h0]
  unfold updateInstance fileUpdate
  simp only [hfresh]
  unfold downloadNoRetry
  simp [h1, downloadPath, jsStr]

/-- C6 witness: a concrete form-backed file whose two attempts fail with
distinct errors surfaces the second error after one id/key retry. -/
theorem file_download_retry_once_witness :
    download
      ⟨fun n => if n = 0 then .error (.networkError 1) else .error (.networkError 2),
        ⟨none, some "9", some "K", "T", "D"⟩⟩
      ⟨some ⟨"act", []⟩, some "t0", some "d0", some "1", some "k0", false⟩ =
      (.error (.networkError 2),
        ⟨none, some "T", some "D", some "9", some "K", false⟩,
        [.postAttempt "act", .updateInstanceEv,
          .getAttempt "/sigaa/verFoto?idArquivo=9&key=K"]) :=
  file_download_retry_once
    ⟨some ⟨"act", []⟩, some "t0", some "d0", some "1", some "k0", false⟩
    ⟨"act", []⟩
    ⟨fun n => if n = 0 then .error (.networkError 1) else .error (.networkError 2),
      ⟨none, some "9", some "K", "T", "D"⟩⟩
    (.networkError 1) (.networkError 2) "9" "K" "T" "D"
    rfl rfl rfl rfl rfl

end SigaaApi
